import Mathlib

/-!
Shallow embedding of `src/common/src/crypto.rs` (crate `simperby-common`).

Modelling conventions:

* Bytes are natural numbers, byte strings are `List Nat` (`Bytes`).
* The external crates (`blake3`, `ed25519_dalek`, `rand`) are not part of this
  repository; their entry points used by `crypto.rs` are abstracted into a
  `Scheme` structure of uninterpreted (but total, deterministic) functions.
  `blake3::hash` always produces a 32-byte digest, which is recorded as the
  `blake3_len` field.  `blake3::Hash::from(data: [u8; 32])` wraps the bytes
  without hashing them (library semantics of the `From` impl), modelled by
  `blake3HashFrom`.
* `Signature::sign` and `check_keypair_match` are mutually recursive in the
  source (`sign` first calls `check_keypair_match`, which itself calls `sign`
  on a fixed message).  They are embedded with an explicit fuel parameter
  bounding the call depth: a result of `none` means the computation did not
  finish within that depth.  A function whose fueled embedding returns `none`
  for every fuel has an infinite call tree, i.e. the Rust function does not
  terminate on that input.
* Fallible Rust code (`Result<T, CryptoError>`) becomes `Except CryptoError T`.
* Rust `format!` calls are resolved using the `Display` impls of the source,
  all of which print a single question mark.
-/

/-- Byte strings, as used for keys, signatures, digests and messages. -/
abbrev Bytes := List Nat

/-- The error enum of `crypto.rs`: `InvalidFormat(String)` or `VerificationFailed`. -/
inductive CryptoError where
  | invalidFormat (msg : String)
  | verificationFailed
deriving DecidableEq, Repr

/-- `Hash256`: a cryptographic hash, 32 raw bytes. -/
structure Hash256 where
  hash : Bytes
deriving DecidableEq, Repr

/-- `PublicKey`: an opaque byte-carrying public key. -/
structure PublicKey where
  key : Bytes
deriving DecidableEq, Repr

/-- `PrivateKey`: an opaque byte-carrying private key. -/
structure PrivateKey where
  key : Bytes
deriving DecidableEq, Repr

/-- `Signature`: an opaque byte-carrying signature. -/
structure Signature where
  signature : Bytes
deriving DecidableEq, Repr

/-- The external cryptographic libraries used by `crypto.rs`, abstracted:
`blake3` is `blake3::hash` (always a 32-byte digest); `decodeSig`, `decodePub`
and `decodePriv` are `ed25519_dalek::{Signature, PublicKey, SecretKey}::from_bytes`
(decoded native values are kept as the byte strings they decode to);
`dalekSign secret public msg` is `Keypair { secret, public }.sign(msg).to_bytes().to_vec()`;
`dalekVerify public msg sig` is the success of `PublicKey::verify`;
`keypairGen seed32` is `Keypair::generate(StdRng::from_seed(seed32))`, returning
the public and the secret key bytes. -/
structure Scheme where
  blake3 : Bytes → Bytes
  blake3_len : ∀ d, (blake3 d).length = 32
  decodeSig : Bytes → Option Bytes
  decodePub : Bytes → Option Bytes
  decodePriv : Bytes → Option Bytes
  dalekSign : Bytes → Bytes → Bytes → Bytes
  dalekVerify : Bytes → Bytes → Bytes → Bool
  keypairGen : Bytes → Bytes × Bytes

/-- `Hash256::hash(data)`: digest of the input bytes. -/
def Hash256.hashOf (P : Scheme) (data : Bytes) : Hash256 :=
  ⟨P.blake3 data⟩

/-- `Hash256::zero()`: the all-zero digest. -/
def Hash256.zero : Hash256 :=
  ⟨List.replicate 32 0⟩

/-- `blake3::Hash::from(data: [u8; 32])`: wraps the 32 bytes as-is, with no
hashing (semantics of the library's `From` impl for byte arrays). -/
def blake3HashFrom (data : Bytes) : Bytes :=
  data

/-- `Hash256::from_array(data)`: `blake3::Hash::from(data).as_bytes()`. -/
def Hash256.from_array (data : Bytes) : Hash256 :=
  ⟨blake3HashFrom data⟩

/-- `Hash256::aggregate(&self, other)`: `Self::hash([self.hash, other.hash].concat())`. -/
def Hash256.aggregate (P : Scheme) (a b : Hash256) : Hash256 :=
  Hash256.hashOf P (List.flatten [a.hash, b.hash])

/-- `Signature::verify(&self, data, public_key)`.  Decodes the signature bytes
(failure: `InvalidFormat("signature: ?")`, the `Display` of `Signature` being
a question mark), then the public key bytes (failure:
`InvalidFormat("public_key: ?")`), then runs the verification procedure on the
digest's raw bytes, mapping failure to `VerificationFailed`. -/
def Signature.verify (P : Scheme) (s : Signature) (data : Hash256)
    (pk : PublicKey) : Except CryptoError Unit :=
  match P.decodeSig s.signature with
  | none => Except.error (CryptoError.invalidFormat "signature: ?")
  | some sig =>
    match P.decodePub pk.key with
    | none => Except.error (CryptoError.invalidFormat "public_key: ?")
    | some p =>
      if P.dalekVerify p data.hash sig then Except.ok ()
      else Except.error CryptoError.verificationFailed

/-- Lines 74 to 84 of `Signature::sign`, the part after the keypair check:
decode the public key (failure: `InvalidFormat("public key: ?")`, the `Display`
of `PublicKey` being a question mark), decode the private key (failure: the
constant message `InvalidFormat("private key: [omitted]")`), then sign the
digest's raw bytes with the assembled keypair. -/
def Signature.signInner (P : Scheme) (data : Hash256) (pk : PublicKey)
    (sk : PrivateKey) : Except CryptoError Signature :=
  match P.decodePub pk.key with
  | none => Except.error (CryptoError.invalidFormat "public key: ?")
  | some p =>
    match P.decodePriv sk.key with
    | none => Except.error (CryptoError.invalidFormat "private key: [omitted]")
    | some s => Except.ok ⟨P.dalekSign s p data.hash⟩

/-- `"Some Random Message".as_bytes()`, the fixed test message of
`check_keypair_match` (pure ASCII, so UTF-8 bytes are the code points). -/
def someRandomMessage : Bytes :=
  "Some Random Message".toList.map Char.toNat

mutual

/-- `Signature::sign(data, public_key, private_key)`, fueled.  The source first
runs `check_keypair_match(public_key, private_key)?` and only then decodes the
keys and signs (`Signature.signInner`).  `none` means the call did not finish
within the given call depth. -/
def Signature.sign (P : Scheme) : Nat → Hash256 → PublicKey → PrivateKey →
    Option (Except CryptoError Signature)
  | 0, _, _, _ => none
  | n + 1, data, pk, sk =>
    match check_keypair_match P n pk sk with
    | none => none
    | some (Except.error e) => some (Except.error e)
    | some (Except.ok _) => some (Signature.signInner P data pk sk)

/-- `check_keypair_match(public_key, private_key)`, fueled.  The source signs
the fixed message with `Signature::sign(Hash256::hash(msg), pk, sk)?` and then
verifies the resulting signature against the public key. -/
def check_keypair_match (P : Scheme) : Nat → PublicKey → PrivateKey →
    Option (Except CryptoError Unit)
  | 0, _, _ => none
  | n + 1, pk, sk =>
    match Signature.sign P n (Hash256.hashOf P someRandomMessage) pk sk with
    | none => none
    | some (Except.error e) => some (Except.error e)
    | some (Except.ok s) =>
      some (Signature.verify P s (Hash256.hashOf P someRandomMessage) pk)

end

/-- `TypedSignature<T>`: a signature marked with the type of the signed data
(the phantom marker carries no runtime payload). -/
structure TypedSignature (T : Type) where
  signature : Signature
deriving DecidableEq, Repr

/-- `TypedSignature::<T>::sign(data, public_key, private_key)`.  `ser` is
`serde_json::to_vec` for `T` (fallible).  Serialization failure yields
`InvalidFormat("data")` at once; otherwise the serialized bytes are hashed and
`Signature::sign` is delegated to, its result wrapped with the type tag. -/
def TypedSignature.sign {T : Type} (P : Scheme) (ser : T → Option Bytes)
    (fuel : Nat) (data : T) (pk : PublicKey) (sk : PrivateKey) :
    Option (Except CryptoError (TypedSignature T)) :=
  match ser data with
  | none => some (Except.error (CryptoError.invalidFormat "data"))
  | some bytes =>
    (Signature.sign P fuel (Hash256.hashOf P bytes) pk sk).map
      (Except.map fun s => ⟨s⟩)

/-- `TypedSignature::<T>::verify(&self, data, public_key)`: same serialize,
hash, delegate-to-verify pipeline (serialization failure yields
`InvalidFormat("data")`). -/
def TypedSignature.verify {T : Type} (P : Scheme) (ser : T → Option Bytes)
    (ts : TypedSignature T) (data : T) (pk : PublicKey) :
    Except CryptoError Unit :=
  match ser data with
  | none => Except.error (CryptoError.invalidFormat "data")
  | some bytes => Signature.verify P ts.signature (Hash256.hashOf P bytes) pk

/-- The seed-copying loop of `generate_keypair`: a zero-initialized 32-byte
array whose entry `i` is overwritten with byte `i` of the digest. -/
def seedTo32 (h : Bytes) : Bytes :=
  (List.range 32).map fun i => h.getD i 0

/-- `generate_keypair(seed)`: hash the seed, copy the 32 digest bytes into the
RNG seed array, seed `StdRng` with it and derive an ed25519 keypair. -/
def generate_keypair (P : Scheme) (seed : Bytes) : PublicKey × PrivateKey :=
  let seed32 := seedTo32 (Hash256.hashOf P seed).hash
  let kp := P.keypairGen seed32
  (⟨kp.1⟩, ⟨kp.2⟩)

/-- A concrete instantiation of the abstracted libraries, used to evaluate the
embedding on explicit inputs. -/
def schemeForTests : Scheme where
  blake3 := fun d => (List.range 32).map fun i => (i + d.length) % 256
  blake3_len := by intro d; simp
  decodeSig := fun l => if l.length = 64 then some l else none
  decodePub := fun l => if l.length = 32 then some l else none
  decodePriv := fun l => if l.length = 32 then some l else none
  dalekSign := fun s p m => s ++ p ++ m
  dalekVerify := fun _ _ sg => sg.length == 64
  keypairGen := fun s => (s, s)

/-- `"hello".as_bytes()`, the message of the spec's end-to-end scenario. -/
def helloBytes : Bytes :=
  "hello".toList.map Char.toNat

/-- `"test-seed".as_bytes()`, the seed of the spec's end-to-end scenario. -/
def testSeedBytes : Bytes :=
  "test-seed".toList.map Char.toNat

theorem sign_and_check_out_of_fuel (P : Scheme) :
    ∀ n : Nat, (∀ data pk sk, Signature.sign P n data pk sk = none) ∧
      (∀ pk sk, check_keypair_match P n pk sk = none) := by
  intro n
  induction n with
  | zero => exact ⟨fun _ _ _ => rfl, fun _ _ => rfl⟩
  | succ n ih =>
    refine ⟨fun data pk sk => ?_, fun pk sk => ?_⟩
    · rw [Signature.sign, ih.2]
    · rw [check_keypair_match, ih.1]

/-- `"other-seed".as_bytes()`, a second seed used to build a mismatched keypair. -/
def otherSeedBytes : Bytes :=
  "other-seed".toList.map Char.toNat

theorem seedTo32_of_length (h : Bytes) (hl : h.length = 32) : seedTo32 h = h := by
  apply List.ext_getElem
  · simp [seedTo32, hl]
  · intro i h1 h2
    simp only [seedTo32, List.getElem_map, List.getElem_range]
    exact List.getD_eq_getElem h 0 h2

/-- C1 (counterexample): `TypedSignature::sign` does terminate on an input
whose serialization fails: with a serializer that rejects its argument, it
returns `InvalidFormat("data")` without ever calling `Signature::sign` (fuel 0
suffices, so no recursion is involved). -/
theorem typedSign_terminates_on_failed_serialization :
    TypedSignature.sign schemeForTests (fun _ : Unit => (none : Option Bytes))
        0 () ⟨[]⟩ ⟨[]⟩
      = some (Except.error (CryptoError.invalidFormat "data"))
    ∧ TypedSignature.sign schemeForTests (fun _ : Unit => (none : Option Bytes))
        0 () ⟨[]⟩ ⟨[]⟩ ≠ none := by
  exact ⟨rfl, by simp [TypedSignature.sign]⟩

/-- C1 (amended): `Signature::sign` unconditionally calls
`check_keypair_match` first, which unconditionally calls `Signature::sign`
back; the mutual recursion has no base case, so neither `Signature::sign` nor
`check_keypair_match` terminates on any input (every finite call depth is
exhausted), and `TypedSignature::sign` does not terminate on any input whose
serialization succeeds. -/
theorem crypto_sign_nonterminating {T : Type} (P : Scheme) (n fuel : Nat)
    (data : Hash256) (pk : PublicKey) (sk : PrivateKey)
    (ser : T → Option Bytes) (v : T) (bytes : Bytes)
    (hser : ser v = some bytes) :
    Signature.sign P n data pk sk = none
    ∧ check_keypair_match P n pk sk = none
    ∧ TypedSignature.sign P ser fuel v pk sk = none := by
  refine ⟨(sign_and_check_out_of_fuel P n).1 data pk sk,
    (sign_and_check_out_of_fuel P n).2 pk sk, ?_⟩
  simp [TypedSignature.sign, hser, (sign_and_check_out_of_fuel P fuel).1]

/-- Witness for C1's theorem at concrete inputs. -/
theorem crypto_sign_nonterminating_witness :
    Signature.sign schemeForTests 7 Hash256.zero ⟨[]⟩ ⟨[]⟩ = none
    ∧ check_keypair_match schemeForTests 7 ⟨[]⟩ ⟨[]⟩ = none
    ∧ TypedSignature.sign schemeForTests (fun _ : Unit => some [1, 2, 3])
        7 () ⟨[]⟩ ⟨[]⟩ = none :=
  crypto_sign_nonterminating schemeForTests 7 7 Hash256.zero ⟨[]⟩ ⟨[]⟩
    (fun _ : Unit => some [1, 2, 3]) () [1, 2, 3] rfl

/-- C2: in the spec's own scenario (keypair from seed `"test-seed"`, digest of
`"hello"`), `Signature::sign` never returns at all — for every call depth the
fueled embedding is still running — so it cannot return `Ok` with a
verifiable signature as the claim states. -/
theorem sign_scenario_never_returns (P : Scheme) (n : Nat) :
    Signature.sign P n (Hash256.hashOf P helloBytes)
      (generate_keypair P testSeedBytes).1
      (generate_keypair P testSeedBytes).2 = none :=
  (sign_and_check_out_of_fuel P n).1 _ _ _

/-- C3: on a mismatched keypair (public key from seed `"test-seed"`, private
key from seed `"other-seed"`), `Signature::sign` never returns at all — it
does not return the error the claim describes. -/
theorem sign_mismatched_keys_never_returns (P : Scheme) (n : Nat) :
    Signature.sign P n Hash256.zero
      (generate_keypair P testSeedBytes).1
      (generate_keypair P otherSeedBytes).2 = none :=
  (sign_and_check_out_of_fuel P n).1 _ _ _

/-- C4: for every seed, `check_keypair_match` on the keypair produced by
`generate_keypair` never returns at all — for every call depth the fueled
embedding is still running — so it cannot return `Ok(())` as the claim
states. -/
theorem check_keypair_match_never_returns (P : Scheme) (s : Bytes) (n : Nat) :
    check_keypair_match P n
      (generate_keypair P s).1 (generate_keypair P s).2 = none :=
  (sign_and_check_out_of_fuel P n).2 _ _

/-- C5: `Hash256::aggregate(a, b)` is the digest of the concatenation of the
raw bytes of `a` followed by the raw bytes of `b`, in that order. -/
theorem aggregate_eq_hash_append (P : Scheme) (a b : Hash256) :
    Hash256.aggregate P a b = Hash256.hashOf P (a.hash ++ b.hash) := by
  simp [Hash256.aggregate]

/-- C6: `Signature::verify` returns `InvalidFormat` when the signature bytes
fail to decode, `InvalidFormat` when the public key bytes fail to decode, and
once both decode it returns `VerificationFailed` exactly when the
cryptographic verification of the signature against the digest's raw bytes
fails, and `Ok(())` exactly when it succeeds. -/
theorem verify_error_cases (P : Scheme) (s : Signature) (data : Hash256)
    (pk : PublicKey) :
    (P.decodeSig s.signature = none →
      Signature.verify P s data pk
        = Except.error (CryptoError.invalidFormat "signature: ?"))
    ∧ (∀ sig, P.decodeSig s.signature = some sig → P.decodePub pk.key = none →
      Signature.verify P s data pk
        = Except.error (CryptoError.invalidFormat "public_key: ?"))
    ∧ (∀ sig p, P.decodeSig s.signature = some sig →
        P.decodePub pk.key = some p →
      (Signature.verify P s data pk = Except.error CryptoError.verificationFailed
        ↔ P.dalekVerify p data.hash sig = false)
      ∧ (Signature.verify P s data pk = Except.ok ()
        ↔ P.dalekVerify p data.hash sig = true)) := by
  refine ⟨fun h => ?_, fun sig h1 h2 => ?_, fun sig p h1 h2 => ?_⟩
  · simp [Signature.verify, h]
  · simp [Signature.verify, h1, h2]
  · cases hb : P.dalekVerify p data.hash sig <;>
      simp [Signature.verify, h1, h2, hb]

/-- Witness for C6's theorem: each of the three branches exercised at a
concrete input under the concrete scheme. -/
theorem verify_error_cases_witness :
    Signature.verify schemeForTests ⟨[]⟩ Hash256.zero ⟨List.replicate 32 0⟩
      = Except.error (CryptoError.invalidFormat "signature: ?")
    ∧ Signature.verify schemeForTests ⟨List.replicate 64 0⟩ Hash256.zero ⟨[]⟩
      = Except.error (CryptoError.invalidFormat "public_key: ?")
    ∧ Signature.verify schemeForTests ⟨List.replicate 64 0⟩ Hash256.zero
        ⟨List.replicate 32 0⟩
      = Except.ok () :=
  ⟨(verify_error_cases schemeForTests ⟨[]⟩ Hash256.zero
      ⟨List.replicate 32 0⟩).1 rfl,
   (verify_error_cases schemeForTests ⟨List.replicate 64 0⟩ Hash256.zero
      ⟨[]⟩).2.1 (List.replicate 64 0) rfl rfl,
   ((verify_error_cases schemeForTests ⟨List.replicate 64 0⟩ Hash256.zero
      ⟨List.replicate 32 0⟩).2.2 (List.replicate 64 0) (List.replicate 32 0)
      rfl rfl).2.mpr rfl⟩

/-- C7: `TypedSignature::sign` equals the serialize-hash-delegate pipeline —
`Signature::sign` on the digest of the serialized value, its result wrapped
with the type tag — and `TypedSignature::verify` equals `Signature::verify`
against that same digest; when serialization fails, both return
`InvalidFormat("data")`. -/
theorem typedSignature_pipeline {T : Type} (P : Scheme) (ser : T → Option Bytes)
    (fuel : Nat) (v : T) (ts : TypedSignature T) (pk : PublicKey)
    (sk : PrivateKey) :
    (∀ bytes, ser v = some bytes →
      TypedSignature.sign P ser fuel v pk sk
        = (Signature.sign P fuel (Hash256.hashOf P bytes) pk sk).map
            (Except.map fun s => (⟨s⟩ : TypedSignature T))
      ∧ TypedSignature.verify P ser ts v pk
        = Signature.verify P ts.signature (Hash256.hashOf P bytes) pk)
    ∧ (ser v = none →
      TypedSignature.sign P ser fuel v pk sk
        = some (Except.error (CryptoError.invalidFormat "data"))
      ∧ TypedSignature.verify P ser ts v pk
        = Except.error (CryptoError.invalidFormat "data")) := by
  constructor
  · intro bytes h
    constructor <;> simp [TypedSignature.sign, TypedSignature.verify, h]
  · intro h
    constructor <;> simp [TypedSignature.sign, TypedSignature.verify, h]

/-- Witness for C7's theorem: both the successful-serialization equation and
the failed-serialization error at concrete inputs. -/
theorem typedSignature_pipeline_witness :
    TypedSignature.sign schemeForTests (fun _ : Unit => some [1, 2]) 3 ()
        ⟨[]⟩ ⟨[]⟩
      = (Signature.sign schemeForTests 3
          (Hash256.hashOf schemeForTests [1, 2]) ⟨[]⟩ ⟨[]⟩).map
            (Except.map fun s => (⟨s⟩ : TypedSignature Unit))
    ∧ TypedSignature.verify schemeForTests (fun _ : Unit => none) ⟨⟨[]⟩⟩ ()
        ⟨[]⟩
      = Except.error (CryptoError.invalidFormat "data") :=
  ⟨((typedSignature_pipeline schemeForTests (fun _ : Unit => some [1, 2]) 3 ()
      ⟨⟨[]⟩⟩ ⟨[]⟩ ⟨[]⟩).1 [1, 2] rfl).1,
   ((typedSignature_pipeline schemeForTests (fun _ : Unit => none) 3 ()
      ⟨⟨[]⟩⟩ ⟨[]⟩ ⟨[]⟩).2 rfl).2⟩

/-- C8: the `InvalidFormat` error of the private-key decoding step of
`Signature::sign` carries the constant context string
`"private key: [omitted]"`, independent of the private key's byte content:
two private keys that both fail to decode produce identical results, and
never the key's bytes. -/
theorem sign_private_key_error_constant (P : Scheme) (data : Hash256)
    (pk : PublicKey) (sk1 sk2 : PrivateKey) (p : Bytes)
    (hpub : P.decodePub pk.key = some p)
    (h1 : P.decodePriv sk1.key = none) (h2 : P.decodePriv sk2.key = none) :
    Signature.signInner P data pk sk1
      = Except.error (CryptoError.invalidFormat "private key: [omitted]")
    ∧ Signature.signInner P data pk sk1 = Signature.signInner P data pk sk2 := by
  constructor <;> simp [Signature.signInner, hpub, h1, h2]

/-- Witness for C8's theorem: two different undecodable private keys at a
concrete decodable public key. -/
theorem sign_private_key_error_constant_witness :
    Signature.signInner schemeForTests Hash256.zero ⟨List.replicate 32 0⟩ ⟨[]⟩
      = Except.error (CryptoError.invalidFormat "private key: [omitted]")
    ∧ Signature.signInner schemeForTests Hash256.zero ⟨List.replicate 32 0⟩ ⟨[]⟩
      = Signature.signInner schemeForTests Hash256.zero ⟨List.replicate 32 0⟩
          ⟨[0]⟩ :=
  sign_private_key_error_constant schemeForTests Hash256.zero
    ⟨List.replicate 32 0⟩ ⟨[]⟩ ⟨[0]⟩ (List.replicate 32 0) rfl rfl rfl

/-- C9: `generate_keypair` is deterministic — equal seeds give equal
keypairs — and equals the pipeline of hashing the seed to a 32-byte digest,
seeding the generator with exactly those bytes (the zero-initialized copy
loop reproduces the digest), and deriving the keypair from the generator. -/
theorem generate_keypair_deterministic (P : Scheme) (s : Bytes) :
    generate_keypair P s = generate_keypair P s
    ∧ generate_keypair P s
      = ((⟨(P.keypairGen ((Hash256.hashOf P s).hash)).1⟩ : PublicKey),
         (⟨(P.keypairGen ((Hash256.hashOf P s).hash)).2⟩ : PrivateKey)) := by
  refine ⟨rfl, ?_⟩
  have h : seedTo32 (Hash256.hashOf P s).hash = (Hash256.hashOf P s).hash :=
    seedTo32_of_length _ (P.blake3_len s)
  simp [generate_keypair, h]

/-- C10: `Hash256::from_array` injects the given 32 bytes unchanged — the
`hash` field of the result is exactly the input array, with no re-hashing. -/
theorem from_array_preserves_bytes (d : Bytes) (_h : d.length = 32) :
    (Hash256.from_array d).hash = d :=
  rfl

/-- Witness for C10's theorem at a concrete 32-byte array. -/
theorem from_array_preserves_bytes_witness :
    (List.replicate 32 1).length = 32
    ∧ (Hash256.from_array (List.replicate 32 1)).hash = List.replicate 32 1 :=
  ⟨by simp, from_array_preserves_bytes (List.replicate 32 1) (by simp)⟩
